import Mathlib

/-!
Verification development for the ocm-vscode-extension repository.

Two components are modelled:
  * the tool verifier, `verifyTools`, embedded from
    src/src/utils/environment.ts;
  * the project scaffolder behind the ocmNewProject command, whose
    implementation is not among the sources; it is modelled from the
    design document and the assertions of the test suite in
    src/unnamed/part_000.
-/

namespace Ocm

/-- A required external tool, from src/src/utils/environment.ts
(interface RequiredTool: name, installUrl). -/
structure RequiredTool where
  name : String
  installUrl : String
deriving DecidableEq

/-- The static list of required tools, from src/src/utils/environment.ts
(export const requiredTools). -/
def requiredTools : List RequiredTool :=
  [ { name := "kubectl",
      installUrl := "https://kubernetes.io/docs/tasks/tools/#kubectl" },
    { name := "clusteradm",
      installUrl := "https://github.com/open-cluster-management-io/clusteradm#install-the-clusteradm-command-line" },
    { name := "kind",
      installUrl := "https://kind.sigs.k8s.io/docs/user/quick-start/#installation" } ]

/-- Per-tool message passed to the `success` callback by the inner catch
handler of `verifyTools` (environment.ts line 34). -/
def perToolMsg (t : RequiredTool) : String :=
  "OCM extension, " ++ t.name ++ " is missing, please install it: " ++ t.installUrl

/-- Message passed to the `success` callback by the then handler of
`verifyTools` (environment.ts line 38). -/
def allGoodMsg : String :=
  "OCM extension, all tools are accessible, we\x27re good to go"

/-- Message passed to the `failure` callback by the outer catch handler of
`verifyTools` (environment.ts line 39). -/
def missingToolsMsg : String :=
  "OCM extension, we\x27re missing some tools"

/-- Observable outcome of one call to `verifyTools`: the messages each
callback was invoked with, and whether the returned promise fulfilled. -/
structure VerifyResult where
  successCalls : List String
  failureCalls : List String
  fulfilled : Bool
deriving DecidableEq

/-- The invocations of the `success` callback produced by one run of
`verifyTools` (environment.ts lines 32-38), listed here in tool-list
order; the actual completion order of the detached probe chains is not
determined, which the `sched` argument of `verifyTools` accounts for.
For every tool whose probe rejects, the inner catch handler (line 34)
invokes `success` with the per-tool message; the arrow passed to
`tools.map` (line 32) has a statement body and returns no value, so
`Promise.all` receives an array of undefined values, always fulfils,
and the then handler (line 38) invokes `success` with `allGoodMsg`. -/
def successInvocations (probe : String → Bool) (tools : List RequiredTool) :
    List String :=
  ((tools.filter (fun t => !(probe t.name))).map perToolMsg) ++ [allGoodMsg]

/-- Embedding of `verifyTools` (environment.ts lines 29-40).
Parameters:
  * `successThrows m` / `failureThrows m`: whether the corresponding
    callback throws when invoked with message `m` (a LoggerCallback is an
    arbitrary function and may throw);
  * `probe name`: whether `shell.checkToolExists name` resolves;
  * `tools`: the rest-parameter tool list;
  * `sched`: the interleaving in which the success-callback invocations
    are observed (probe chains are detached and complete in no fixed
    order); a realisable schedule is a permutation of the invocation
    list, which theorems assume where it matters.
Because `Promise.all` always fulfils (see `successInvocations`), the then
handler always runs: the `failure` callback is reached only when
`success allGoodMsg` throws, in which case the outer catch (line 39)
invokes `failure missingToolsMsg`; the returned promise then rejects
exactly when that `failure` invocation throws as well. Exceptions thrown
by `success` on a per-tool message occur in a detached chain and do not
affect the returned promise. -/
def verifyTools (successThrows failureThrows : String → Bool)
    (probe : String → Bool) (tools : List RequiredTool)
    (sched : List String → List String) : VerifyResult :=
  let calls := sched (successInvocations probe tools)
  if successThrows allGoodMsg then
    { successCalls := calls
      failureCalls := [missingToolsMsg]
      fulfilled := !(failureThrows missingToolsMsg) }
  else
    { successCalls := calls
      failureCalls := []
      fulfilled := true }

/-- The aggregate result of a run: the multiset of success-callback
invocations (order-free), the failure-callback invocations, and whether
the promise fulfilled. -/
def aggregate (r : VerifyResult) : Multiset String × List String × Bool :=
  ((r.successCalls : Multiset String), r.failureCalls, r.fulfilled)

/-- A schedule that never throws, for concrete evaluations. -/
def noThrow : String → Bool := fun _ => false

/-! ## Project scaffolder (ocmNewProject command)

The implementation of the command is not among the sources; only its
test suite (src/unnamed/part_000) is. The model below is built from the
design document (section 4.1, Project Scaffolder) with every observable
the tests assert taken from the tests: the exact template file set, the
exact user-facing messages, the default project name and type, and the
no-write behaviour on the two failure paths. -/

/-- The fixed template file set, from src/unnamed/part_000 lines 16-24
(expectedProjectFiles). -/
def expectedProjectFiles : List String :=
  [ "00-namespaces.yaml",
    "README.md",
    "channel.yaml",
    "clusterset.yaml",
    "clustersetbinding.yaml",
    "placement.yaml",
    "subscription.yaml" ]

/-- Modelled from the spec: the byte content of one scaffolded file,
split into the one patchable "type" field (present in the templated
resource file, absent elsewhere) and all remaining bytes. The concrete
template bytes are bundled with the extension and are not among the
sources, so `rest` is abstract. -/
structure FileContent where
  typeField : Option String
  rest : String
deriving DecidableEq

/-- Modelled from the spec: the bundled read-only template content of
the file with the given name; a placeholder byte string standing for
the bundled bytes, which are not among the sources. The templated
resource file is channel.yaml, whose spec.type field the tests read
(part_000 lines 76-77, 104-105). -/
def templateContent (name : String) : FileContent :=
  { typeField := if name = "channel.yaml" then some "placeholder" else none
    rest := "template-bytes:" ++ name }

/-- Modelled from the spec: patching the "type" field of a templated
resource file to the project type, preserving all other file contents
byte-for-byte (spec section 4.1). -/
def patchTypeField (projectType : String) (c : FileContent) : FileContent :=
  { c with typeField := some projectType }

/-- Modelled from the spec: the host environment the command consults -
whether a workspace root is resolvable and whether the destination
directory already exists. -/
structure ScaffoldEnv where
  workspaceRoot : Option String
  destExists : Bool
deriving DecidableEq

/-- Observable outcome of one run of the command: the files written to
the destination (empty when nothing is written) and the single
user-facing notification. -/
structure ScaffoldResult where
  written : List (String × FileContent)
  message : String
deriving DecidableEq

/-- Project type resolution: the pick-box selection, defaulting to Git
when the user made no selection (part_000 lines 85-106: no quick-pick
selection yields spec.type Git). -/
def resolveProjectType (pick : Option String) : String :=
  pick.getD "Git"

/-- Project name resolution: the input-box text, defaulting to
ocm-application when the user entered nothing (part_000 lines 85-102:
an empty input yields the project ocm-application). -/
def resolveProjectName (input : Option String) : String :=
  match input with
  | none => "ocm-application"
  | some s => if s = "" then "ocm-application" else s

/-- The files a successful run writes: each template copied verbatim,
except channel.yaml whose type field is patched to the project type
(spec section 4.1; part_000 lines 67-77). -/
def scaffoldFiles (projectType : String) : List (String × FileContent) :=
  expectedProjectFiles.map (fun name =>
    (name,
      if name = "channel.yaml" then
        patchTypeField projectType (templateContent name)
      else
        templateContent name))

/-- Modelled from the spec: the ocmNewProject command, whose
implementation is not among the sources. Behaviour per spec section 4.1
and the test suite:
  * no resolvable workspace root: no write, NoWorkspace message
    (part_000 lines 129-149);
  * destination already exists: no write, AlreadyExists message
    (part_000 lines 108-127);
  * otherwise: the template set is copied with channel.yaml patched,
    and the success message is shown; the tests fix the success message
    as "OCM project <name> created" (part_000 lines 73-74, 101-102). -/
def ocmNewProject (env : ScaffoldEnv) (typePick nameInput : Option String) :
    ScaffoldResult :=
  let name := resolveProjectName nameInput
  if env.workspaceRoot.isNone then
    { written := []
      message := "no workspace folder, please open a project or create a workspace" }
  else if env.destExists then
    { written := []
      message := "project folder " ++ name ++ " exists, please use another" }
  else
    { written := scaffoldFiles (resolveProjectType typePick)
      message := "OCM project " ++ name ++ " created" }

/-! ## Theorems for the tool verifier claims -/

/-- Claim C1, evaluation of the bug: running `verifyTools` on the full
required-tool list with every probe rejecting and callbacks that never
throw still invokes the success path with the all-good message and
never invokes the failure path. The claim says failure, and only
failure, should be reported when a probe rejects; the arrow passed to
`tools.map` returns no promise, so the aggregation never sees the probe
results. -/
theorem verifyTools_C1_bug_eval :
    allGoodMsg ∈
      (verifyTools noThrow noThrow (fun _ => false) requiredTools id).successCalls
    ∧ (verifyTools noThrow noThrow (fun _ => false) requiredTools id).failureCalls
      = [] := by
  decide

/-- Claim C2, counterexample: with every probe rejecting and callbacks
that never throw, the run emits four messages (three per-tool missing
messages plus the all-good message), not exactly one, and the aggregate
missing-tools message is never among the failure-callback invocations. -/
theorem verifyTools_C2_counterexample :
    ((verifyTools noThrow noThrow (fun _ => false) requiredTools id).successCalls.length
      + (verifyTools noThrow noThrow (fun _ => false) requiredTools id).failureCalls.length
      = 4)
    ∧ ¬ ((verifyTools noThrow noThrow (fun _ => false) requiredTools id).successCalls.length
      + (verifyTools noThrow noThrow (fun _ => false) requiredTools id).failureCalls.length
      = 1)
    ∧ (verifyTools noThrow noThrow (fun _ => false) requiredTools id).failureCalls
      = [] := by
  decide

/-- Claim C2, amended: when the success callback does not throw on the
all-good message and the schedule is realisable (a permutation of the
invocation list), the run invokes the success callback once per
rejecting tool plus once with the all-good message, and never invokes
the failure callback; so exactly one message is emitted just when every
probe resolves, and per-tool messages are emitted in addition whenever
some probe rejects. -/
theorem verifyTools_C2_amended (st ft probe : String → Bool)
    (tools : List RequiredTool) (sched : List String → List String)
    (hs : st allGoodMsg = false)
    (hp : (sched (successInvocations probe tools)).Perm
      (successInvocations probe tools)) :
    (verifyTools st ft probe tools sched).successCalls.length
        = (tools.filter (fun t => !(probe t.name))).length + 1
    ∧ (verifyTools st ft probe tools sched).failureCalls = [] := by
  have hlen : (sched (successInvocations probe tools)).length
      = (tools.filter (fun t => !(probe t.name))).length + 1 := by
    rw [hp.length_eq]
    simp [successInvocations]
  unfold verifyTools
  simp [hs, hlen]

/-- Witness for the amended claim C2 at a concrete input: one probe
rejects among the three required tools, the schedule is the identity. -/
theorem verifyTools_C2_amended_witness :
    noThrow allGoodMsg = false
    ∧ (id (successInvocations (fun n => n == "kubectl") requiredTools)).Perm
        (successInvocations (fun n => n == "kubectl") requiredTools)
    ∧ ((verifyTools noThrow noThrow (fun n => n == "kubectl") requiredTools id).successCalls.length
          = ((requiredTools.filter (fun t => !((fun n => n == "kubectl") t.name))).length + 1)
        ∧ (verifyTools noThrow noThrow (fun n => n == "kubectl") requiredTools id).failureCalls
          = []) :=
  ⟨rfl, List.Perm.refl _,
    verifyTools_C2_amended noThrow noThrow (fun n => n == "kubectl") requiredTools id
      rfl (List.Perm.refl _)⟩

/-- Claim C8: the returned promise fulfils whenever the callbacks do
not throw. Only a throw of the success callback on the all-good message
(and then of the failure callback on the missing-tools message) could
reject the returned promise, so those are the hypotheses. -/
theorem verifyTools_C8 (st ft probe : String → Bool)
    (tools : List RequiredTool) (sched : List String → List String)
    (hs : st allGoodMsg = false) (_hf : ft missingToolsMsg = false) :
    (verifyTools st ft probe tools sched).fulfilled = true := by
  unfold verifyTools
  simp [hs]

/-- Witness for claim C8 at a concrete input: every probe rejects,
callbacks never throw, the promise still fulfils. -/
theorem verifyTools_C8_witness :
    noThrow allGoodMsg = false
    ∧ noThrow missingToolsMsg = false
    ∧ (verifyTools noThrow noThrow (fun _ => false) requiredTools id).fulfilled
      = true :=
  ⟨rfl, rfl,
    verifyTools_C8 noThrow noThrow (fun _ => false) requiredTools id rfl rfl⟩

/-- Claim C9, idempotence: two runs over the same tool list with the
same probe outcomes, differing only in the order in which the detached
probe chains complete (any two realisable schedules), produce the same
aggregate result: the same multiset of success-callback messages, the
same failure-callback invocations, and the same settlement of the
returned promise. -/
theorem verifyTools_C9 (st ft probe : String → Bool)
    (tools : List RequiredTool) (sched1 sched2 : List String → List String)
    (h1 : (sched1 (successInvocations probe tools)).Perm
      (successInvocations probe tools))
    (h2 : (sched2 (successInvocations probe tools)).Perm
      (successInvocations probe tools)) :
    aggregate (verifyTools st ft probe tools sched1)
      = aggregate (verifyTools st ft probe tools sched2) := by
  unfold verifyTools aggregate
  have hq : ((sched1 (successInvocations probe tools) : Multiset String))
      = ((sched2 (successInvocations probe tools) : Multiset String)) :=
    Multiset.coe_eq_coe.mpr (h1.trans h2.symm)
  split <;> simpa using hq

/-- Witness for claim C9 at a concrete input: one probe resolves, and
the two runs observe the success invocations in opposite orders. -/
theorem verifyTools_C9_witness :
    (id (successInvocations (fun n => n == "kubectl") requiredTools)).Perm
      (successInvocations (fun n => n == "kubectl") requiredTools)
    ∧ (List.reverse (successInvocations (fun n => n == "kubectl") requiredTools)).Perm
      (successInvocations (fun n => n == "kubectl") requiredTools)
    ∧ aggregate (verifyTools noThrow noThrow (fun n => n == "kubectl") requiredTools id)
      = aggregate (verifyTools noThrow noThrow (fun n => n == "kubectl") requiredTools
          List.reverse) :=
  ⟨List.Perm.refl _, List.reverse_perm _,
    verifyTools_C9 noThrow noThrow (fun n => n == "kubectl") requiredTools id
      List.reverse (List.Perm.refl _) (List.reverse_perm _)⟩

/-- Claim C10: on the empty tool list, under any realisable schedule
and a success callback that does not throw on the all-good message, the
success callback is invoked exactly once, with the all-good message;
the failure callback is never invoked; and the returned promise
fulfils. -/
theorem verifyTools_C10 (st ft probe : String → Bool)
    (sched : List String → List String)
    (hs : st allGoodMsg = false)
    (hp : (sched (successInvocations probe [])).Perm
      (successInvocations probe [])) :
    (verifyTools st ft probe [] sched).successCalls = [allGoodMsg]
    ∧ (verifyTools st ft probe [] sched).failureCalls = []
    ∧ (verifyTools st ft probe [] sched).fulfilled = true := by
  have hone : sched (successInvocations probe []) = [allGoodMsg] :=
    List.perm_singleton.mp hp
  unfold verifyTools
  simp [hs, hone]

/-- Witness for claim C10 at a concrete input: empty tool list,
identity schedule, callbacks never throw. -/
theorem verifyTools_C10_witness :
    noThrow allGoodMsg = false
    ∧ (id (successInvocations (fun _ => false) [])).Perm
      (successInvocations (fun _ => false) [])
    ∧ ((verifyTools noThrow noThrow (fun _ => false) [] id).successCalls = [allGoodMsg]
        ∧ (verifyTools noThrow noThrow (fun _ => false) [] id).failureCalls = []
        ∧ (verifyTools noThrow noThrow (fun _ => false) [] id).fulfilled = true) :=
  ⟨rfl, List.Perm.refl _,
    verifyTools_C10 noThrow noThrow (fun _ => false) id rfl (List.Perm.refl _)⟩

/-! ## Theorems for the scaffolder claims -/

/-- Claim C3, counterexample: scaffolding with project type Git and
name dummy-project-name-Git (the first test case, part_000 lines
54-74) shows the message "OCM project dummy-project-name-Git created",
which is not "Git project dummy-project-name-Git created": the message
starts with the fixed word OCM, not with the project type. -/
theorem ocmNewProject_C3_counterexample :
    (ocmNewProject { workspaceRoot := some "test-workspace", destExists := false }
        (some "Git") (some "dummy-project-name-Git")).message
      = "OCM project dummy-project-name-Git created"
    ∧ ¬ ((ocmNewProject { workspaceRoot := some "test-workspace", destExists := false }
        (some "Git") (some "dummy-project-name-Git")).message
      = "Git project dummy-project-name-Git created") := by
  decide

/-- Claim C3, amended: on successful scaffolding the single
notification is exactly "OCM project <name> created" - the fixed word
OCM, then " project ", the resolved project name, and " created"; it
includes the project name but not the project type. -/
theorem ocmNewProject_C3_amended (env : ScaffoldEnv)
    (typePick nameInput : Option String)
    (hw : env.workspaceRoot.isSome = true) (hd : env.destExists = false) :
    (ocmNewProject env typePick nameInput).message
      = "OCM project " ++ resolveProjectName nameInput ++ " created" := by
  obtain ⟨r, hr⟩ := Option.isSome_iff_exists.mp hw
  simp [ocmNewProject, hr, hd]

/-- Witness for the amended claim C3 at a concrete input. -/
theorem ocmNewProject_C3_amended_witness :
    (ScaffoldEnv.mk (some "ws") false).workspaceRoot.isSome = true
    ∧ (ScaffoldEnv.mk (some "ws") false).destExists = false
    ∧ (ocmNewProject (ScaffoldEnv.mk (some "ws") false)
        (some "Git") (some "my-app")).message
      = "OCM project " ++ resolveProjectName (some "my-app") ++ " created" :=
  ⟨rfl, rfl,
    ocmNewProject_C3_amended (ScaffoldEnv.mk (some "ws") false)
      (some "Git") (some "my-app") rfl rfl⟩

/-- Claim C4: when the destination directory already exists (the
destination is resolved against a workspace root, so one is in scope),
nothing is written and the AlreadyExists message is shown verbatim
(part_000 lines 108-127). -/
theorem ocmNewProject_C4 (env : ScaffoldEnv)
    (typePick nameInput : Option String)
    (hw : env.workspaceRoot.isSome = true) (hd : env.destExists = true) :
    (ocmNewProject env typePick nameInput).written = []
    ∧ (ocmNewProject env typePick nameInput).message
      = "project folder " ++ resolveProjectName nameInput
        ++ " exists, please use another" := by
  obtain ⟨r, hr⟩ := Option.isSome_iff_exists.mp hw
  simp [ocmNewProject, hr, hd]

/-- Witness for claim C4 at a concrete input: the existing folder of
the test suite (part_000 lines 108-127). -/
theorem ocmNewProject_C4_witness :
    (ScaffoldEnv.mk (some "ws") true).workspaceRoot.isSome = true
    ∧ (ScaffoldEnv.mk (some "ws") true).destExists = true
    ∧ ((ocmNewProject (ScaffoldEnv.mk (some "ws") true)
          none (some "existing-folder-name")).written = []
        ∧ (ocmNewProject (ScaffoldEnv.mk (some "ws") true)
            none (some "existing-folder-name")).message
          = "project folder " ++ resolveProjectName (some "existing-folder-name")
            ++ " exists, please use another") :=
  ⟨rfl, rfl,
    ocmNewProject_C4 (ScaffoldEnv.mk (some "ws") true)
      none (some "existing-folder-name") rfl rfl⟩

/-- Claim C5: when no workspace root is resolvable, nothing is written
and the NoWorkspace message is shown verbatim (part_000 lines
129-149). -/
theorem ocmNewProject_C5 (env : ScaffoldEnv)
    (typePick nameInput : Option String)
    (hw : env.workspaceRoot = none) :
    (ocmNewProject env typePick nameInput).written = []
    ∧ (ocmNewProject env typePick nameInput).message
      = "no workspace folder, please open a project or create a workspace" := by
  simp [ocmNewProject, hw]

/-- Witness for claim C5 at a concrete input: no workspace, fresh
destination (part_000 lines 129-149). -/
theorem ocmNewProject_C5_witness :
    (ScaffoldEnv.mk none false).workspaceRoot = none
    ∧ ((ocmNewProject (ScaffoldEnv.mk none false)
          none (some "non-existing-folder-name")).written = []
        ∧ (ocmNewProject (ScaffoldEnv.mk none false)
            none (some "non-existing-folder-name")).message
          = "no workspace folder, please open a project or create a workspace") :=
  ⟨rfl,
    ocmNewProject_C5 (ScaffoldEnv.mk none false)
      none (some "non-existing-folder-name") rfl⟩

/-- Claim C6: a successful run writes exactly the fixed template file
set - the written names are precisely expectedProjectFiles, no more and
no fewer - with channel.yaml equal to its template patched to the
resolved project type (a patch that leaves every other byte of the file
unchanged) and every other file equal to its template verbatim
(part_000 lines 16-24 and 67-77; spec section 4.1). -/
theorem ocmNewProject_C6 (env : ScaffoldEnv)
    (typePick nameInput : Option String) (res : ScaffoldResult)
    (hres : res = ocmNewProject env typePick nameInput)
    (hw : env.workspaceRoot.isSome = true) (hd : env.destExists = false) :
    res.written.map Prod.fst = expectedProjectFiles
    ∧ res.written.lookup "channel.yaml"
      = some (patchTypeField (resolveProjectType typePick)
          (templateContent "channel.yaml"))
    ∧ (patchTypeField (resolveProjectType typePick)
        (templateContent "channel.yaml")).rest
      = (templateContent "channel.yaml").rest
    ∧ res.written.lookup "00-namespaces.yaml"
      = some (templateContent "00-namespaces.yaml")
    ∧ res.written.lookup "README.md" = some (templateContent "README.md")
    ∧ res.written.lookup "clusterset.yaml"
      = some (templateContent "clusterset.yaml")
    ∧ res.written.lookup "clustersetbinding.yaml"
      = some (templateContent "clustersetbinding.yaml")
    ∧ res.written.lookup "placement.yaml"
      = some (templateContent "placement.yaml")
    ∧ res.written.lookup "subscription.yaml"
      = some (templateContent "subscription.yaml") := by
  obtain ⟨r, hr⟩ := Option.isSome_iff_exists.mp hw
  subst hres
  simp [ocmNewProject, hr, hd, scaffoldFiles, expectedProjectFiles,
    patchTypeField, List.lookup]

/-- Witness for claim C6 at a concrete input: workspace present, fresh
destination, type Git, name dummy-project-name-Git. -/
theorem ocmNewProject_C6_witness :
    ((ocmNewProject (ScaffoldEnv.mk (some "ws") false)
        (some "Git") (some "dummy-project-name-Git"))
      = ocmNewProject (ScaffoldEnv.mk (some "ws") false)
          (some "Git") (some "dummy-project-name-Git"))
    ∧ (ScaffoldEnv.mk (some "ws") false).workspaceRoot.isSome = true
    ∧ (ScaffoldEnv.mk (some "ws") false).destExists = false
    ∧ ((ocmNewProject (ScaffoldEnv.mk (some "ws") false)
          (some "Git") (some "dummy-project-name-Git")).written.map Prod.fst
        = expectedProjectFiles
      ∧ (ocmNewProject (ScaffoldEnv.mk (some "ws") false)
          (some "Git") (some "dummy-project-name-Git")).written.lookup "channel.yaml"
        = some (patchTypeField (resolveProjectType (some "Git"))
            (templateContent "channel.yaml"))
      ∧ (patchTypeField (resolveProjectType (some "Git"))
          (templateContent "channel.yaml")).rest
        = (templateContent "channel.yaml").rest
      ∧ (ocmNewProject (ScaffoldEnv.mk (some "ws") false)
          (some "Git") (some "dummy-project-name-Git")).written.lookup "00-namespaces.yaml"
        = some (templateContent "00-namespaces.yaml")
      ∧ (ocmNewProject (ScaffoldEnv.mk (some "ws") false)
          (some "Git") (some "dummy-project-name-Git")).written.lookup "README.md"
        = some (templateContent "README.md")
      ∧ (ocmNewProject (ScaffoldEnv.mk (some "ws") false)
          (some "Git") (some "dummy-project-name-Git")).written.lookup "clusterset.yaml"
        = some (templateContent "clusterset.yaml")
      ∧ (ocmNewProject (ScaffoldEnv.mk (some "ws") false)
          (some "Git") (some "dummy-project-name-Git")).written.lookup "clustersetbinding.yaml"
        = some (templateContent "clustersetbinding.yaml")
      ∧ (ocmNewProject (ScaffoldEnv.mk (some "ws") false)
          (some "Git") (some "dummy-project-name-Git")).written.lookup "placement.yaml"
        = some (templateContent "placement.yaml")
      ∧ (ocmNewProject (ScaffoldEnv.mk (some "ws") false)
          (some "Git") (some "dummy-project-name-Git")).written.lookup "subscription.yaml"
        = some (templateContent "subscription.yaml")) :=
  ⟨rfl, rfl, rfl,
    ocmNewProject_C6 (ScaffoldEnv.mk (some "ws") false)
      (some "Git") (some "dummy-project-name-Git") _ rfl rfl rfl⟩

/-- Claim C7: when the user specifies no project type (no pick-box
selection), the type defaults to "Git": the resolved type is "Git" and
the scaffolded channel.yaml carries type field "Git" (part_000 lines
85-106). -/
theorem ocmNewProject_C7 (env : ScaffoldEnv) (nameInput : Option String)
    (hw : env.workspaceRoot.isSome = true) (hd : env.destExists = false) :
    resolveProjectType none = "Git"
    ∧ (ocmNewProject env none nameInput).written.lookup "channel.yaml"
      = some (patchTypeField "Git" (templateContent "channel.yaml"))
    ∧ (patchTypeField "Git" (templateContent "channel.yaml")).typeField
      = some "Git" := by
  obtain ⟨r, hr⟩ := Option.isSome_iff_exists.mp hw
  simp [ocmNewProject, hr, hd, scaffoldFiles, expectedProjectFiles,
    patchTypeField, resolveProjectType, List.lookup]

/-- Witness for claim C7 at a concrete input: the default-name,
default-type test case (part_000 lines 85-106). -/
theorem ocmNewProject_C7_witness :
    (ScaffoldEnv.mk (some "ws") false).workspaceRoot.isSome = true
    ∧ (ScaffoldEnv.mk (some "ws") false).destExists = false
    ∧ (resolveProjectType none = "Git"
      ∧ (ocmNewProject (ScaffoldEnv.mk (some "ws") false) none (some "")).written.lookup
          "channel.yaml"
        = some (patchTypeField "Git" (templateContent "channel.yaml"))
      ∧ (patchTypeField "Git" (templateContent "channel.yaml")).typeField
        = some "Git") :=
  ⟨rfl, rfl,
    ocmNewProject_C7 (ScaffoldEnv.mk (some "ws") false) (some "") rfl rfl⟩

end Ocm
